import Mathlib

/-!
Verification development for the serverless task scheduler.

The definitions below are a shallow embedding of the repository's two
Lambda handlers:

* `src/lambda_functions/executor/executor_handler.py` — tick orchestration
  (`handler`), per-task execution (`execute_task`), the dispatcher
  (`execute_webhook`, `execute_message`), the status write
  (`update_task_status`), and recurrence expansion
  (`schedule_next_occurrence`).
* `src/lambda_functions/api/api_handler.py` — task creation
  (`schedule_task`).

Embedding conventions:

* Timestamps stored in `run_at` are calendar values at second precision
  (`DateTime` below).  The code stores them as fixed-width ISO-8601 strings
  `YYYY-MM-DDTHH:MM:SSZ`; on such strings lexicographic comparison agrees
  with chronological comparison, which `dtKey`/`dtLeb` capture.
* `created_at` / `updated_at` are opaque wall-clock stamps, modelled as a
  `Nat` supplied by the caller (the code calls `datetime.utcnow()` at the
  write site).
* Python exceptions are modelled with `Except`/`Option`: a function that can
  raise returns the error message in the error branch.
  `datetime.replace` with an out-of-range day raises
  `ValueError("day is out of range for month")`; the `Option`-returning
  `replaceDay`/`replaceMonth`/`replaceYearMonth` return `none` there.
* Store effects are recorded as a trace of `StoreOp` values; store failures
  are injected through oracles (`updErr` for `update_item`, `putErr` for
  `put_item`) so that the executor's exception paths can be examined.
* The external HTTP call made by webhook dispatch is an oracle
  `http : Payload → Except String Nat`.
-/

namespace TaskScheduler

/-- Calendar timestamp at second precision (the precision of the
`YYYY-MM-DDTHH:MM:SSZ` strings the code reads and writes). -/
structure DateTime where
  year : Nat
  month : Nat
  day : Nat
  hour : Nat
  minute : Nat
  second : Nat
deriving DecidableEq

/-- Gregorian leap-year rule, as in Python's `calendar`/`datetime`. -/
def isLeapYear (y : Nat) : Bool :=
  (y % 4 == 0 && y % 100 != 0) || y % 400 == 0

/-- Number of days in a month, as validated by `datetime.replace`. -/
def daysInMonth (y m : Nat) : Nat :=
  if m = 2 then (if isLeapYear y then 29 else 28)
  else if m = 4 ∨ m = 6 ∨ m = 9 ∨ m = 11 then 30
  else 31

/-- Python `datetime.replace(day=d)`: `none` models the
`ValueError("day is out of range for month")` raised on an invalid day. -/
def replaceDay (t : DateTime) (d : Nat) : Option DateTime :=
  if 1 ≤ d ∧ d ≤ daysInMonth t.year t.month then some { t with day := d } else none

/-- Python `datetime.replace(month=m)`: the existing day must be valid in the
new month, else `ValueError`. -/
def replaceMonth (t : DateTime) (m : Nat) : Option DateTime :=
  if 1 ≤ m ∧ m ≤ 12 ∧ t.day ≤ daysInMonth t.year m then some { t with month := m } else none

/-- Python `datetime.replace(year=y, month=m)`. -/
def replaceYearMonth (t : DateTime) (y m : Nat) : Option DateTime :=
  if 1 ≤ m ∧ m ≤ 12 ∧ t.day ≤ daysInMonth y m then some { t with year := y, month := m } else none

/-- The recurrence computation of `schedule_next_occurrence`
(executor_handler.py lines 177-192).  `Except.error` models the
`ValueError` raised by `datetime.replace`; `Except.ok none` models the
unsupported-pattern branch (log and return, no successor). -/
def computeNextRun (recurrence : String) (current_time : DateTime) :
    Except String (Option DateTime) :=
  if recurrence = "daily" then
    match replaceDay current_time (current_time.day + 1) with
    | some d => Except.ok (some d)
    | none => Except.error "day is out of range for month"
  else if recurrence = "weekly" then
    match replaceDay current_time (current_time.day + 7) with
    | some d => Except.ok (some d)
    | none => Except.error "day is out of range for month"
  else if recurrence = "monthly" then
    if current_time.month = 12 then
      match replaceYearMonth current_time (current_time.year + 1) 1 with
      | some d => Except.ok (some d)
      | none => Except.error "day is out of range for month"
    else
      match replaceMonth current_time (current_time.month + 1) with
      | some d => Except.ok (some d)
      | none => Except.error "day is out of range for month"
  else
    Except.ok none

/-- Injection of a valid timestamp into a single chronological key; on
in-range fields this order coincides with lexicographic comparison of the
fixed-width ISO strings the store compares. -/
def dtKey (t : DateTime) : Nat :=
  ((((t.year * 100 + t.month) * 100 + t.day) * 100 + t.hour) * 100 + t.minute) * 100 + t.second

/-- The `run_at <= current_time` comparison used by the due-task query. -/
def dtLeb (a b : DateTime) : Bool :=
  dtKey a ≤ dtKey b

/-- Calendar successor day (used only for the sub-day rollover of
`addMin330`). -/
def nextCalendarDay (t : DateTime) : DateTime :=
  if t.day < daysInMonth t.year t.month then { t with day := t.day + 1 }
  else if t.month < 12 then { t with month := t.month + 1, day := 1 }
  else { t with year := t.year + 1, month := 1, day := 1 }

/-- Python `datetime.utcnow() + timedelta(hours=5, minutes=30)` as written in
executor_handler.py line 28.  330 minutes is less than a day, so the sum
crosses at most one midnight. -/
def addMin330 (t : DateTime) : DateTime :=
  let total := t.hour * 60 + t.minute + 330
  if total < 1440 then { t with hour := total / 60, minute := total % 60 }
  else
    let d := nextCalendarDay t
    { d with hour := (total - 1440) / 60, minute := (total - 1440) % 60 }

/-- Zero-padded two-digit field of an ISO timestamp. -/
def pad2 (n : Nat) : String :=
  if n < 10 then "0" ++ toString n else toString n

/-- Zero-padded four-digit year field of an ISO timestamp. -/
def pad4 (n : Nat) : String :=
  if n < 10 then "000" ++ toString n
  else if n < 100 then "00" ++ toString n
  else if n < 1000 then "0" ++ toString n
  else toString n

/-- Python `next_run.isoformat().replace('+00:00', 'Z')` on a second-precision
UTC datetime. -/
def isoZ (t : DateTime) : String :=
  pad4 t.year ++ "-" ++ pad2 t.month ++ "-" ++ pad2 t.day ++ "T" ++
    pad2 t.hour ++ ":" ++ pad2 t.minute ++ ":" ++ pad2 t.second ++ "Z"

/-- Task payloads: string-keyed dictionaries, modelled as association lists
(the engine only reads string-valued fields from them). -/
abbrev Payload := List (String × String)

/-- Python `dict.get(k)` returning `None` when the key is absent. -/
def Payload.get (p : Payload) (k : String) : Option String :=
  (p.find? (fun kv => kv.1 == k)).map (fun kv => kv.2)

/-- The task record stored in the table (data model of spec section 3). -/
structure Task where
  task_id : String
  action : String
  payload : Payload
  run_at : DateTime
  status : String
  recurrence : Option String
  created_at : Nat
  updated_at : Nat
  error_message : Option String
  parent_task_id : Option String
deriving DecidableEq

/-- One store write performed by the executor:
`update` mirrors a `table.update_item` call issued by `update_task_status`
(carrying its arguments and the wall-clock stamp written to `updated_at`),
`put` mirrors a `table.put_item` call. -/
inductive StoreOp where
  | update (task_id : String) (run_at : DateTime) (status : String)
      (error_message : Option String) (written_at : Nat)
  | put (item : Task)
deriving DecidableEq

/-- Webhook dispatch (executor_handler.py lines 103-125).  `payload.get('url')`
followed by `if not url: raise ValueError("Webhook URL is required")`; an
accepted request is handed to the external HTTP collaborator `http`, whose
raised errors (network failure, `raise_for_status`) flow back as
`Except.error`. -/
def execute_webhook (http : Payload → Except String Nat) (payload : Payload) :
    Except String Nat :=
  let url := (payload.get "url").getD ""
  if url = "" then Except.error "Webhook URL is required"
  else http payload

/-- Message dispatch (executor_handler.py lines 127-140): reads `message` and
`recipient` with empty-string defaults, logs, and returns `True`; it never
raises. -/
def execute_message (payload : Payload) : Except String Bool :=
  let _message := (payload.get "message").getD ""
  let _recipient := (payload.get "recipient").getD ""
  Except.ok true

/-- Field assignments of the `UpdateExpression` built by `update_task_status`
(executor_handler.py lines 146-155). -/
inductive FieldAssign where
  | setStatus (s : String)
  | setUpdatedAt (n : Nat)
  | setErrorMessage (m : String)

/-- The update expression `update_task_status` builds:
`SET #status = :status, updated_at = :updated_at`, extended with
`error_message = :error_message` only when `if error_message:` is truthy
(Python: `None` and the empty string are falsy). -/
def buildUpdateExpression (status : String) (now : Nat) (error_message : Option String) :
    List FieldAssign :=
  [FieldAssign.setStatus status, FieldAssign.setUpdatedAt now] ++
    (match error_message with
     | some m => if m = "" then [] else [FieldAssign.setErrorMessage m]
     | none => [])

/-- Effect of one `SET` clause on the stored task record. -/
def applyAssign (t : Task) (a : FieldAssign) : Task :=
  match a with
  | FieldAssign.setStatus s => { t with status := s }
  | FieldAssign.setUpdatedAt n => { t with updated_at := n }
  | FieldAssign.setErrorMessage m => { t with error_message := some m }

/-- Record-level semantics of `update_task_status` (executor_handler.py lines
142-167): the built update expression applied to the stored record. -/
def update_task_status (t : Task) (status : String) (now : Nat)
    (error_message : Option String) : Task :=
  (buildUpdateExpression status now error_message).foldl applyAssign t

/-- Successor record built by `schedule_next_occurrence` (executor_handler.py
lines 196-208): `task_id` is the parent id joined to the successor's ISO
`run_at`, status is `scheduled`, `parent_task_id` points at the parent. -/
def buildSuccessor (task : Task) (next_run : DateTime) (now : Nat) : Task :=
  { task_id := task.task_id ++ "-" ++ isoZ next_run
    action := task.action
    payload := task.payload
    run_at := next_run
    status := "scheduled"
    recurrence := task.recurrence
    created_at := now
    updated_at := now
    error_message := none
    parent_task_id := some task.task_id }

/-- Recurrence expansion (executor_handler.py lines 169-211), returning the
trace of store writes and, in the second component, the message of an
exception propagating out (raised by `datetime.replace` or by `put_item`,
whose failures are injected through `putErr`). -/
def schedule_next_occurrence (putErr : Task → Option String) (now : Nat) (task : Task) :
    List StoreOp × Option String :=
  match task.recurrence with
  | none => ([], none)
  | some recurrence =>
    match computeNextRun recurrence task.run_at with
    | Except.error e => ([], some e)
    | Except.ok none => ([], none)
    | Except.ok (some next_run) =>
      let new_task := buildSuccessor task next_run now
      match putErr new_task with
      | some e => ([], some e)
      | none => ([StoreOp.put new_task], none)

/-- Tail of `execute_task`'s try block once dispatch has succeeded
(executor_handler.py lines 92-97): write `completed`, then expand recurrence
when the field is present. -/
def afterDispatch (updErr : String → String → Option String)
    (putErr : Task → Option String) (now : Nat) (task : Task) (op1 : StoreOp) :
    List StoreOp × Option String :=
  match updErr task.task_id "completed" with
  | some e => ([op1], some e)
  | none =>
    let op2 := StoreOp.update task.task_id task.run_at "completed" none now
    match task.recurrence with
    | none => ([op1, op2], none)
    | some _ =>
      let r := schedule_next_occurrence putErr now task
      ([op1, op2] ++ r.1, r.2)

/-- Body of `execute_task`'s try block (executor_handler.py lines 78-97):
write `running`, dispatch on the action, write the terminal status.  The
unsupported-action branch writes `failed` and returns without reaching the
completed write or recurrence expansion.  `updErr tid st` injects the
exception text of a failing `update_item` call (none = the write succeeds). -/
def executeTaskTry (http : Payload → Except String Nat)
    (updErr : String → String → Option String) (putErr : Task → Option String)
    (now : Nat) (task : Task) : List StoreOp × Option String :=
  match updErr task.task_id "running" with
  | some e => ([], some e)
  | none =>
    let op1 := StoreOp.update task.task_id task.run_at "running" none now
    if task.action = "webhook" then
      match execute_webhook http task.payload with
      | Except.error e => ([op1], some e)
      | Except.ok _ => afterDispatch updErr putErr now task op1
    else if task.action = "message" then
      match execute_message task.payload with
      | Except.error e => ([op1], some e)
      | Except.ok _ => afterDispatch updErr putErr now task op1
    else
      match updErr task.task_id "failed" with
      | some e => ([op1], some e)
      | none =>
        ([op1, StoreOp.update task.task_id task.run_at "failed"
            (some ("Unsupported action type: " ++ task.action)) now], none)

/-- Per-task execution (executor_handler.py lines 66-101).  The except block
logs and writes `failed` with the exception text; if that write itself
raises, the new exception propagates out of `execute_task` (second component
`some`). -/
def execute_task (http : Payload → Except String Nat)
    (updErr : String → String → Option String) (putErr : Task → Option String)
    (now : Nat) (task : Task) : List StoreOp × Option String :=
  match executeTaskTry http updErr putErr now task with
  | (ops, none) => (ops, none)
  | (ops, some e) =>
    match updErr task.task_id "failed" with
    | some e2 => (ops, some e2)
    | none =>
      (ops ++ [StoreOp.update task.task_id task.run_at "failed" (some e) now], none)

/-- The due-task query (executor_handler.py lines 32-43): status equals
`scheduled` and `run_at <= current_time` under the store's string order. -/
def queryDue (stored : List Task) (current_time : DateTime) : List Task :=
  stored.filter (fun t => t.status == "scheduled" && dtLeb t.run_at current_time)

/-- The `for task in tasks: execute_task(task)` loop of the handler: an
exception propagating out of `execute_task` stops the loop (it is caught
only by the handler's outer except). -/
def runTasks (http : Payload → Except String Nat)
    (updErr : String → String → Option String) (putErr : Task → Option String)
    (now : Nat) : List Task → List StoreOp × Option String
  | [] => ([], none)
  | t :: ts =>
    match execute_task http updErr putErr now t with
    | (ops, some e) => (ops, some e)
    | (ops, none) =>
      let r := runTasks http updErr putErr now ts
      (ops ++ r.1, r.2)

/-- The tick entry point (executor_handler.py lines 18-64): compute
`current_time` as `utcnow() + timedelta(hours=5, minutes=30)`, query due
tasks, execute them in order; an uncaught exception reaches the outer except
and the tick returns 500, otherwise 200. -/
def handler (http : Payload → Except String Nat)
    (updErr : String → String → Option String) (putErr : Task → Option String)
    (now : Nat) (utcNow : DateTime) (stored : List Task) : List StoreOp × Nat :=
  let current_time := addMin330 utcNow
  let tasks := queryDue stored current_time
  match runTasks http updErr putErr now tasks with
  | (ops, none) => (ops, 200)
  | (ops, some _) => (ops, 500)

/-- The store as a keyed table; DynamoDB `put_item` replaces the item with
the same primary key `(task_id, run_at)`. -/
abbrev Store := List Task

/-- Primary-key match on `(task_id, run_at)`. -/
def keyMatch (tid : String) (r : DateTime) (u : Task) : Bool :=
  u.task_id == tid && decide (u.run_at = r)

/-- DynamoDB `put_item`: insert-or-replace by primary key. -/
def put_item (s : Store) (t : Task) : Store :=
  t :: s.filter (fun u => !(keyMatch t.task_id t.run_at u))

/-- Number of records in the store with the given primary key. -/
def countKey (s : Store) (tid : String) (r : DateTime) : Nat :=
  (s.filter (keyMatch tid r)).length

/-- Digit value of an ASCII digit character. -/
def digitVal (c : Char) : Option Nat :=
  if c.isDigit then some (c.toNat - 48) else none

/-- Two-digit field parser. -/
def parse2 (a b : Char) : Option Nat :=
  match digitVal a, digitVal b with
  | some x, some y => some (x * 10 + y)
  | _, _ => none

/-- Four-digit field parser. -/
def parse4 (a b c d : Char) : Option Nat :=
  match parse2 a b, parse2 c d with
  | some x, some y => some (x * 100 + y)
  | _, _ => none

/-- Python `datetime.fromisoformat(run_at.replace('Z', '+00:00'))` on the
canonical second-precision wire form `YYYY-MM-DDTHH:MM:SSZ` (api_handler.py
line 78): `none` models the `ValueError` on a malformed timestamp. -/
def parseIso (s : String) : Option DateTime :=
  match s.toList with
  | [y1, y2, y3, y4, c1, m1, m2, c2, d1, d2, c3, h1, h2, c4, n1, n2, c5, s1, s2, c6] =>
    if c1 = '-' ∧ c2 = '-' ∧ c3 = 'T' ∧ c4 = ':' ∧ c5 = ':' ∧ c6 = 'Z' then
      match parse4 y1 y2 y3 y4, parse2 m1 m2, parse2 d1 d2,
          parse2 h1 h2, parse2 n1 n2, parse2 s1 s2 with
      | some y, some mo, some d, some h, some mi, some se =>
        if 1 ≤ mo ∧ mo ≤ 12 ∧ 1 ≤ d ∧ d ≤ daysInMonth y mo ∧ h ≤ 23 ∧ mi ≤ 59 ∧ se ≤ 59 then
          some ⟨y, mo, d, h, mi, se⟩
        else none
      | _, _, _, _, _, _ => none
    else none
  | _ => none

/-- Request body of `POST /tasks` as seen by `schedule_task`; `none` in a
field models `field not in body`. -/
structure RequestBody where
  action : Option String
  payload : Option Payload
  run_at : Option String
  recurrence : Option String

/-- HTTP-level result of the API call. -/
structure ApiResult where
  statusCode : Nat
  body_task_id : Option String
  body_error : Option String
deriving DecidableEq

/-- Task creation (api_handler.py lines 54-123): require `action`, `payload`,
`run_at` (in that order, each missing field a 400), validate `run_at` by
parsing it (400 on failure), then build the `scheduled` record and `put` it.
`body = none` models a body `json.loads` cannot parse (caught by the outer
except, 500).  `gen_task_id` stands for the generated `uuid4` and `now` for
`datetime.utcnow()`. -/
def schedule_task (body : Option RequestBody) (gen_task_id : String) (now : Nat) :
    ApiResult × Option Task :=
  match body with
  | none => ({ statusCode := 500, body_task_id := none, body_error := some "bad json" }, none)
  | some b =>
    match b.action with
    | none =>
      ({ statusCode := 400, body_task_id := none,
         body_error := some "Missing required field: action" }, none)
    | some action =>
      match b.payload with
      | none =>
        ({ statusCode := 400, body_task_id := none,
           body_error := some "Missing required field: payload" }, none)
      | some payload =>
        match b.run_at with
        | none =>
          ({ statusCode := 400, body_task_id := none,
             body_error := some "Missing required field: run_at" }, none)
        | some run_at_str =>
          match parseIso run_at_str with
          | none =>
            ({ statusCode := 400, body_task_id := none,
               body_error :=
                 some "Invalid run_at format. Use ISO8601 format (YYYY-MM-DDTHH:MM:SSZ)" },
             none)
          | some run_at =>
            let task : Task :=
              { task_id := gen_task_id
                action := action
                payload := payload
                run_at := run_at
                status := "scheduled"
                recurrence := b.recurrence
                created_at := now
                updated_at := now
                error_message := none
                parent_task_id := none }
            ({ statusCode := 201, body_task_id := some gen_task_id, body_error := none },
             some task)

/-- Oracle for a store whose `update_item` calls all succeed. -/
def noUpdErr : String → String → Option String := fun _ _ => none

/-- Oracle for a store whose `put_item` calls all succeed. -/
def noPutErr : Task → Option String := fun _ => none

/-- HTTP collaborator that accepts every request with status 200. -/
def httpOk : Payload → Except String Nat := fun _ => Except.ok 200

/-- Statuses written by a trace of store operations, in order. -/
def statusWrites (ops : List StoreOp) : List String :=
  ops.filterMap (fun op =>
    match op with
    | StoreOp.update _ _ s _ _ => some s
    | StoreOp.put _ => none)

/-- Due recurring message task whose `run_at` falls on the last day of
January: the recurrence arithmetic raises on this date. -/
def msgDailyJan31 : Task :=
  { task_id := "t-rec", action := "message", payload := [],
    run_at := ⟨2024, 1, 31, 10, 0, 0⟩, status := "scheduled",
    recurrence := some "daily", created_at := 0, updated_at := 0,
    error_message := none, parent_task_id := none }

/-- Scheduled task whose `run_at` is two hours after the reference UTC
instant 2024-01-01T00:00:00Z. -/
def futTask : Task :=
  { task_id := "t-fut", action := "message", payload := [],
    run_at := ⟨2024, 1, 1, 2, 0, 0⟩, status := "scheduled",
    recurrence := none, created_at := 0, updated_at := 0,
    error_message := none, parent_task_id := none }

/-- Due webhook task used in the store-failure scenario. -/
def webTaskA : Task :=
  { task_id := "A", action := "webhook", payload := [("url", "http://example.com/x")],
    run_at := ⟨2024, 1, 1, 0, 0, 0⟩, status := "scheduled",
    recurrence := none, created_at := 0, updated_at := 0,
    error_message := none, parent_task_id := none }

/-- Second due task of the store-failure scenario, after `webTaskA` in the
query result. -/
def msgTaskB : Task :=
  { task_id := "B", action := "message", payload := [],
    run_at := ⟨2024, 1, 1, 0, 0, 0⟩, status := "scheduled",
    recurrence := none, created_at := 0, updated_at := 0,
    error_message := none, parent_task_id := none }

/-- HTTP collaborator whose requests all fail with a network error. -/
def httpDown : Payload → Except String Nat := fun _ => Except.error "connection error"

/-- Store oracle where only the write of status `failed` for task `A`
raises. -/
def updErrA : String → String → Option String :=
  fun tid st => if tid == "A" && st == "failed" then some "store write failed" else none

/-- Due task carrying an action the dispatcher does not support. -/
def emailTask : Task :=
  { task_id := "t9", action := "email", payload := [],
    run_at := ⟨2024, 3, 1, 12, 0, 0⟩, status := "scheduled",
    recurrence := none, created_at := 0, updated_at := 0,
    error_message := none, parent_task_id := none }

/-- Due one-shot message task. -/
def msgPlainTask : Task :=
  { task_id := "t10", action := "message", payload := [],
    run_at := ⟨2024, 5, 2, 9, 0, 0⟩, status := "scheduled",
    recurrence := none, created_at := 0, updated_at := 0,
    error_message := none, parent_task_id := none }

/-- Filter leaves nothing when rerun against the complement predicate. -/
theorem filter_not_filter {α : Type} (p : α → Bool) (l : List α) :
    (l.filter (fun a => !(p a))).filter p = [] := by
  induction l with
  | nil => rfl
  | cons a l ih => cases hpa : p a <;> simp [List.filter_cons, hpa, ih]

/-- After a `put_item`, the store holds exactly one record under the written
primary key. -/
theorem countKey_put (s : Store) (t : Task) :
    countKey (put_item s t) t.task_id t.run_at = 1 := by
  have hk : keyMatch t.task_id t.run_at t = true := by simp [keyMatch]
  simp [countKey, put_item, List.filter_cons, hk, filter_not_filter]

/-- Claim C1: once a task has reached `completed` or `failed`, no further
status write occurs in the same tick, including when recurrence expansion
raises.  Refuted at the failing input `msgDailyJan31`: the executor writes
`completed`, recurrence expansion raises
`ValueError("day is out of range for month")`, and the except block then
writes `failed` for the same `(task_id, run_at)` — a store write after the
terminal status. -/
theorem completed_then_failed_after_recurrence_error :
    execute_task httpOk noUpdErr noPutErr 7 msgDailyJan31 =
      ([StoreOp.update "t-rec" ⟨2024, 1, 31, 10, 0, 0⟩ "running" none 7,
        StoreOp.update "t-rec" ⟨2024, 1, 31, 10, 0, 0⟩ "completed" none 7,
        StoreOp.update "t-rec" ⟨2024, 1, 31, 10, 0, 0⟩ "failed"
          (some "day is out of range for month") 7],
       none) := by decide

/-- Claim C2: a task whose `run_at` is strictly in the future is never
returned by the due-task query.  Refuted: with UTC now 2024-01-01T00:00:00Z
the code queries with `utcnow() + timedelta(hours=5, minutes=30)`, so the
scheduled task `futTask` with `run_at` 2024-01-01T02:00:00Z — strictly in
the future — is selected for execution. -/
theorem future_task_selected_for_execution :
    dtKey ⟨2024, 1, 1, 0, 0, 0⟩ < dtKey futTask.run_at ∧
    queryDue [futTask] (addMin330 ⟨2024, 1, 1, 0, 0, 0⟩) = [futTask] := by decide

/-- Claim C3: daily recurrence advances to the next calendar day and never
raises.  Refuted at 2024-01-31T10:00:00Z: the code computes
`replace(day=day+1)`, which raises
`ValueError("day is out of range for month")` instead of returning
2024-02-01T10:00:00Z. -/
theorem daily_recurrence_raises_at_month_end :
    computeNextRun "daily" ⟨2024, 1, 31, 10, 0, 0⟩ =
      Except.error "day is out of range for month" := rfl

/-- Claim C4: a failing status write for one task never aborts the tick for
the others.  Refuted: both `webTaskA` and `msgTaskB` are due, task A's
webhook dispatch fails and the except block's own `failed` write raises; the
exception propagates to the handler's outer except, the tick returns 500,
and task B is never processed (no write for B appears in the trace). -/
theorem store_write_failure_aborts_tick :
    queryDue [webTaskA, msgTaskB] (addMin330 ⟨2024, 1, 1, 0, 0, 0⟩) = [webTaskA, msgTaskB] ∧
    handler httpDown updErrA noPutErr 0 ⟨2024, 1, 1, 0, 0, 0⟩ [webTaskA, msgTaskB] =
      ([StoreOp.update "A" ⟨2024, 1, 1, 0, 0, 0⟩ "running" none 0], 500) := by decide

/-- Claim C5: monthly recurrence keeps the day-of-month, rolls December into
January, and clamps an overflowing day to the last valid day of the target
month.  The December rollover holds
(2024-12-15T10:00:00Z to 2025-01-15T10:00:00Z), but at 2024-01-31T10:00:00Z
the code raises `ValueError("day is out of range for month")` instead of
clamping to 2024-02-29T10:00:00Z. -/
theorem monthly_rollover_ok_but_no_clamp :
    computeNextRun "monthly" ⟨2024, 12, 15, 10, 0, 0⟩ =
      Except.ok (some ⟨2025, 1, 15, 10, 0, 0⟩) ∧
    computeNextRun "monthly" ⟨2024, 1, 31, 10, 0, 0⟩ =
      Except.error "day is out of range for month" := ⟨rfl, rfl⟩

/-- Claim C6: recurrence expansion is idempotent — the successor `task_id`
is a deterministic function of the parent id and the computed next `run_at`
(two expansions at possibly different wall-clock stamps yield the same id),
and after inserting the successor twice the store holds exactly one record
under the successor's primary key, because `put_item` replaces by key. -/
theorem recurrence_expansion_idempotent (s : Store) (task : Task)
    (next_run : DateTime) (n1 n2 : Nat) :
    (buildSuccessor task next_run n1).task_id = (buildSuccessor task next_run n2).task_id ∧
    countKey
      (put_item (put_item s (buildSuccessor task next_run n1)) (buildSuccessor task next_run n2))
      (buildSuccessor task next_run n2).task_id next_run = 1 := by
  refine ⟨rfl, ?_⟩
  exact countKey_put (put_item s (buildSuccessor task next_run n1))
    (buildSuccessor task next_run n2)

/-- Claim C7 counterexample: a webhook task whose payload lacks `url` is not
rejected at the CRUD create operation — `schedule_task` validates only the
presence of `action`, `payload` and `run_at`, so the request is accepted
with status 201 and a `scheduled` task is stored. -/
theorem webhook_without_url_accepted_at_create :
    (schedule_task (some ⟨some "webhook", some [], some "2024-06-01T00:00:00Z", none⟩)
        "w1" 0).1.statusCode = 201 ∧
    (schedule_task (some ⟨some "webhook", some [], some "2024-06-01T00:00:00Z", none⟩)
        "w1" 0).2 =
      some { task_id := "w1", action := "webhook", payload := [],
             run_at := ⟨2024, 6, 1, 0, 0, 0⟩, status := "scheduled", recurrence := none,
             created_at := 0, updated_at := 0, error_message := none,
             parent_task_id := none } := by decide

/-- Claim C7 as amended: a webhook create request whose payload lacks `url`
is accepted by the CRUD surface (201, no payload validation) and the stored
task reaches the Executor, where webhook dispatch raises
`ValueError("Webhook URL is required")` and the task is marked `failed` —
a dispatch failure on an accepted task, not a creation-time validation
error. -/
theorem webhook_without_url_fails_at_dispatch
    (p : Payload) (tid : String) (now : Nat) (http : Payload → Except String Nat)
    (hurl : p.get "url" = none) :
    (schedule_task (some ⟨some "webhook", some p, some "2024-06-01T00:00:00Z", none⟩)
        tid now).1.statusCode = 201 ∧
    ∀ t, (schedule_task (some ⟨some "webhook", some p, some "2024-06-01T00:00:00Z", none⟩)
        tid now).2 = some t →
      execute_task http noUpdErr noPutErr now t =
        ([StoreOp.update tid ⟨2024, 6, 1, 0, 0, 0⟩ "running" none now,
          StoreOp.update tid ⟨2024, 6, 1, 0, 0, 0⟩ "failed"
            (some "Webhook URL is required") now], none) := by
  have hp : parseIso "2024-06-01T00:00:00Z" = some ⟨2024, 6, 1, 0, 0, 0⟩ := by decide
  constructor
  · simp [schedule_task, hp]
  · intro t ht
    simp [schedule_task, hp] at ht
    subst ht
    simp [execute_task, executeTaskTry, execute_webhook, noUpdErr, hurl]

/-- Witness for the amended claim C7 at the empty payload. -/
theorem webhook_without_url_witness :
    (schedule_task (some ⟨some "webhook", some [], some "2024-06-01T00:00:00Z", none⟩)
        "w1" 0).1.statusCode = 201 ∧
    execute_task httpOk noUpdErr noPutErr 0
      { task_id := "w1", action := "webhook", payload := [],
        run_at := ⟨2024, 6, 1, 0, 0, 0⟩, status := "scheduled", recurrence := none,
        created_at := 0, updated_at := 0, error_message := none, parent_task_id := none } =
      ([StoreOp.update "w1" ⟨2024, 6, 1, 0, 0, 0⟩ "running" none 0,
        StoreOp.update "w1" ⟨2024, 6, 1, 0, 0, 0⟩ "failed"
          (some "Webhook URL is required") 0], none) := by
  have h := webhook_without_url_fails_at_dispatch [] "w1" 0 httpOk rfl
  exact ⟨h.1, h.2 _ (by decide)⟩

/-- Claim C8: a status-transition write modifies exactly the status field,
the `updated_at` stamp (set to the write time on every transition), and —
only when a non-empty message is supplied (Python truthiness of the
`error_message` argument) — the `error_message` field; every other field of
the record is unchanged. -/
theorem update_status_exact_frame (t : Task) (st : String) (now : Nat)
    (msg : Option String) :
    (update_task_status t st now msg).task_id = t.task_id ∧
    (update_task_status t st now msg).action = t.action ∧
    (update_task_status t st now msg).payload = t.payload ∧
    (update_task_status t st now msg).run_at = t.run_at ∧
    (update_task_status t st now msg).recurrence = t.recurrence ∧
    (update_task_status t st now msg).created_at = t.created_at ∧
    (update_task_status t st now msg).parent_task_id = t.parent_task_id ∧
    (update_task_status t st now msg).status = st ∧
    (update_task_status t st now msg).updated_at = now ∧
    (update_task_status t st now msg).error_message =
      (match msg with
       | some m => if m = "" then t.error_message else some m
       | none => t.error_message) := by
  cases msg with
  | none => simp [update_task_status, buildUpdateExpression, applyAssign]
  | some m =>
    by_cases hm : m = "" <;>
      simp [update_task_status, buildUpdateExpression, applyAssign, hm]

/-- Claim C9: a due task whose action is neither `webhook` nor `message` is
transitioned to `failed` with a message naming the unsupported action; the
per-task processing returns normally (no exception escapes to the tick
loop), no retry write follows, and no successor is inserted. -/
theorem unsupported_action_fails_without_expansion
    (http : Payload → Except String Nat) (putErr : Task → Option String)
    (now : Nat) (task : Task)
    (hw : task.action ≠ "webhook") (hm : task.action ≠ "message") :
    execute_task http noUpdErr putErr now task =
      ([StoreOp.update task.task_id task.run_at "running" none now,
        StoreOp.update task.task_id task.run_at "failed"
          (some ("Unsupported action type: " ++ task.action)) now], none) := by
  simp [execute_task, executeTaskTry, noUpdErr, hw, hm]

/-- Witness for claim C9 at the concrete action `email`. -/
theorem unsupported_action_witness :
    execute_task httpOk noUpdErr noPutErr 0 emailTask =
      ([StoreOp.update "t9" ⟨2024, 3, 1, 12, 0, 0⟩ "running" none 0,
        StoreOp.update "t9" ⟨2024, 3, 1, 12, 0, 0⟩ "failed"
          (some "Unsupported action type: email") 0], none) := by
  have h := unsupported_action_fails_without_expansion httpOk noPutErr 0 emailTask
    (by decide) (by decide)
  simpa [emailTask] using h

/-- Claim C10 counterexample: a message task does not always end the tick in
status `completed` — for the due recurring message task `msgDailyJan31`
(recurrence `daily`, `run_at` on January 31) the last status write of the
tick is `failed`, because recurrence expansion raises after the `completed`
write. -/
theorem message_recurring_ends_failed :
    msgDailyJan31.action = "message" ∧
    (statusWrites (execute_task httpOk noUpdErr noPutErr 7 msgDailyJan31).1).getLast? =
      some "failed" := by decide

/-- Claim C10 as amended: message dispatch always reports success regardless
of payload contents, and, absent store errors, a message task ends the tick
in status `completed` provided its recurrence expansion does not raise
(in particular always when it has no recurrence); when expansion raises, a
subsequent `failed` write makes `failed` the final status. -/
theorem message_task_ends_completed
    (http : Payload → Except String Nat) (now : Nat) (task : Task)
    (hact : task.action = "message")
    (hrec : ∀ r e, task.recurrence = some r → computeNextRun r task.run_at ≠ Except.error e) :
    execute_message task.payload = Except.ok true ∧
    (execute_task http noUpdErr noPutErr now task).2 = none ∧
    (statusWrites (execute_task http noUpdErr noPutErr now task).1).getLast? =
      some "completed" := by
  have hne : task.action ≠ "webhook" := by rw [hact]; decide
  refine ⟨rfl, ?_⟩
  cases hr : task.recurrence with
  | none =>
    simp [execute_task, executeTaskTry, afterDispatch, noUpdErr, hact, hne, hr,
      execute_message, statusWrites]
  | some r =>
    cases hc : computeNextRun r task.run_at with
    | error e => exact absurd hc (hrec r e hr)
    | ok o =>
      cases o with
      | none =>
        simp [execute_task, executeTaskTry, afterDispatch, schedule_next_occurrence,
          noUpdErr, noPutErr, hact, hne, hr, hc, execute_message, statusWrites]
      | some next_run =>
        simp [execute_task, executeTaskTry, afterDispatch, schedule_next_occurrence,
          noUpdErr, noPutErr, hact, hne, hr, hc, execute_message, statusWrites]

/-- Witness for the amended claim C10 at the one-shot message task. -/
theorem message_task_witness :
    execute_message msgPlainTask.payload = Except.ok true ∧
    (execute_task httpOk noUpdErr noPutErr 0 msgPlainTask).2 = none ∧
    (statusWrites (execute_task httpOk noUpdErr noPutErr 0 msgPlainTask).1).getLast? =
      some "completed" :=
  message_task_ends_completed httpOk 0 msgPlainTask rfl
    (by intro r e h; simp [msgPlainTask] at h)

end TaskScheduler
